import Mathlib

/-!
Verification of the Subscription Lifecycle and Reconciliation Engine.

This file gives a shallow embedding of the core of the repository:
the idempotent payment-ingestion path (app/routers/payments.py,
app/db.py), the subscription state sweep (app/scheduler.py), the
reconciliation job (app/reconcile.py), and the resilience layer
(app/resilience.py).  Timestamps are modelled as integers (seconds),
database tables as lists of records, and each SQL statement as a pure
function on the modelled state.  The `users`, `funnel_events` and
`notifications_queue` tables are write-only from the perspective of the
verified operations and are not modelled.
-/

/-- Subscription status as stored in the `subscriptions.status` column.
The SQL literal strings are `active`, `grace`, `expired`, `banned`;
`opened` is not a status, see `CircuitState` below for the breaker. -/
inductive SubStatus where
  | active
  | grace
  | expired
  | banned
deriving DecidableEq, Repr

/-- Row of the `subscriptions` table (columns used by the core). -/
structure Subscription where
  subscription_id : Nat
  user_id : Nat
  status : SubStatus
  expires_at : Int
  grace_until : Option Int
  grace_started_at : Option Int
  is_recurring : Bool
  reminder_sent_at : Option Int
deriving DecidableEq, Repr

/-- Row of the `payments` table (columns used by the core). -/
structure Payment where
  payment_id : Nat
  user_id : Nat
  charge_id : Option String
  star_tx_id : Option String
  amount : Int
  payment_type : String
  is_recurring : Bool
  invoice_payload : Option String
  subscription_id : Option Nat
  created_at : Int
deriving DecidableEq, Repr

/-- Modelled database state: the tables touched by the verified core.
`whitelist` holds the telegram ids of the active (non-revoked) rows of
the `whitelist` table; `cursor` is `star_tx_cursor.last_tx_at`;
`recurring_subs` maps user id to stored charge id. -/
structure DBState where
  payments : List Payment
  subs : List Subscription
  recurring_subs : List (Nat × String)
  cursor : Option Int
  whitelist : List Nat
  next_payment_id : Nat
  next_subscription_id : Nat
deriving DecidableEq, Repr

/-- Default of `Settings.plan_days` (app/config.py line 26). -/
def plan_days : Int := 30

/-- Default of `Settings.grace_hours` (app/config.py line 28). -/
def grace_hours : Int := 48

/-- Default of `Settings.reconcile_window_days` (app/config.py line 29). -/
def reconcile_window_days : Int := 3

/-- Default of `Settings.days_before_expire` (app/config.py line 31). -/
def days_before_expire : Int := 3

/-- Modelled from the spec: the schema file `app/models.sql` applied by
`scripts/setup_database.py` is not present in the tree, so the uniqueness
guard on the `payments` table is taken from the spec, section 3: the
external charge identifier and the external transaction identifier "are
each unique when non-null".  A pending insert collides exactly when its
non-null `charge_id` equals an existing non-null `charge_id`, or its
non-null `star_tx_id` equals an existing non-null `star_tx_id` (SQL
`NULL` never collides). -/
def payment_unique_violation (payments : List Payment) (charge_id : Option String)
    (star_tx_id : Option String) : Prop :=
  ∃ p ∈ payments,
    (charge_id.isSome ∧ p.charge_id = charge_id) ∨
    (star_tx_id.isSome ∧ p.star_tx_id = star_tx_id)

instance (payments : List Payment) (c s : Option String) :
    Decidable (payment_unique_violation payments c s) :=
  List.decidableBEx _ payments

/-- Embedding of `Database.insert_payment_idempotent` (app/db.py lines
133-148): insert the payment row, returning the row; on a unique
violation catch the error, return `None`, and leave the table as it was. -/
def insert_payment_idempotent (db : DBState) (user_id : Nat) (charge_id : Option String)
    (star_tx_id : Option String) (amount : Int) (payment_type : String)
    (is_recurring : Bool) (invoice_payload : Option String) (now : Int) :
    Option Payment × DBState :=
  if payment_unique_violation db.payments charge_id star_tx_id then
    (none, db)
  else
    let p : Payment :=
      { payment_id := db.next_payment_id, user_id := user_id, charge_id := charge_id,
        star_tx_id := star_tx_id, amount := amount, payment_type := payment_type,
        is_recurring := is_recurring, invoice_payload := invoice_payload,
        subscription_id := none, created_at := now }
    (some p, { db with payments := db.payments ++ [p],
                       next_payment_id := db.next_payment_id + 1 })

/-- Embedding of `Database.get_active_subscription` (app/db.py lines
110-118): the active-or-grace row of the user with the greatest
`expires_at` (SQL `ORDER BY expires_at DESC LIMIT 1`). -/
def get_active_subscription (subs : List Subscription) (user_id : Nat) :
    Option Subscription :=
  (subs.filter (fun s => decide (s.user_id = user_id) &&
      (decide (s.status = SubStatus.active) || decide (s.status = SubStatus.grace)))).foldl
    (fun best s =>
      match best with
      | none => some s
      | some b => if b.expires_at < s.expires_at then some s else some b)
    none

/-- Upsert into `recurring_subs` (`ON CONFLICT (user_id) DO UPDATE`),
used by `Database.process_subscription_payment` (app/db.py lines 196-204). -/
def upsert_recurring (l : List (Nat × String)) (user_id : Nat) (charge_id : String) :
    List (Nat × String) :=
  if l.any (fun e => e.fst == user_id) then
    l.map (fun e => if e.fst == user_id then (user_id, charge_id) else e)
  else
    l ++ [(user_id, charge_id)]

/-- Embedding of `Database.process_subscription_payment` (app/db.py lines
150-204).  One transaction: fetch the user's active-or-grace subscription;
if found, set it active with `expires_at = GREATEST(expires_at, target)`
and null grace fields, where `target` is the provider-supplied expiry or
`now + plan_days`; otherwise insert a fresh active row with `target`.
Then backfill `payments.subscription_id` and upsert `recurring_subs` when
the payment is recurring and carries a charge id. -/
def process_subscription_payment (db : DBState) (user_id : Nat) (payment : Payment)
    (subscription_expiration : Option Int) (is_recurring : Bool) (now : Int) : DBState :=
  let target := subscription_expiration.getD (now + plan_days * 86400)
  let recurring :=
    match is_recurring, payment.charge_id with
    | true, some c => upsert_recurring db.recurring_subs user_id c
    | _, _ => db.recurring_subs
  match get_active_subscription db.subs user_id with
  | some existing_sub =>
    { db with
      subs := db.subs.map (fun s =>
        if s.subscription_id = existing_sub.subscription_id then
          { s with status := SubStatus.active, is_recurring := is_recurring,
                   expires_at := max existing_sub.expires_at target,
                   grace_until := none, grace_started_at := none }
        else s),
      payments := db.payments.map (fun p =>
        if p.payment_id = payment.payment_id then
          { p with subscription_id := some existing_sub.subscription_id }
        else p),
      recurring_subs := recurring }
  | none =>
    let new_sub : Subscription :=
      { subscription_id := db.next_subscription_id, user_id := user_id,
        status := SubStatus.active, expires_at := target, grace_until := none,
        grace_started_at := none, is_recurring := is_recurring,
        reminder_sent_at := none }
    { db with
      subs := db.subs ++ [new_sub],
      payments := db.payments.map (fun p =>
        if p.payment_id = payment.payment_id then
          { p with subscription_id := some db.next_subscription_id }
        else p),
      recurring_subs := recurring,
      next_subscription_id := db.next_subscription_id + 1 }

/-- Outcome of the payment-ingestion entry point. -/
inductive PaymentOutcome where
  | Duplicate
  | Processed
deriving DecidableEq, Repr

/-- Embedding of `handle_successful_payment` (app/routers/payments.py
lines 61-228), restricted to the modelled tables: insert the payment
idempotently; on a duplicate stop (the user is told the payment was
already processed); otherwise run `process_subscription_payment`.
`charge_id` is `payment.telegram_payment_charge_id`, which the transport
always supplies, hence not optional here. -/
def handle_successful_payment (db : DBState) (user_id : Nat) (charge_id : String)
    (star_tx_id : Option String) (amount : Int) (is_recurring : Bool)
    (invoice_payload : Option String) (subscription_expiration : Option Int)
    (now : Int) : PaymentOutcome × DBState :=
  let payment_type := if is_recurring then ("recurring_initial") else ("one_time")
  match insert_payment_idempotent db user_id (some charge_id) star_tx_id amount
      payment_type is_recurring invoice_payload now with
  | (none, db1) => (PaymentOutcome.Duplicate, db1)
  | (some p, db1) =>
    (PaymentOutcome.Processed,
      process_subscription_payment db1 user_id p subscription_expiration is_recurring now)

/-- Trace of the committed database states of one run of
`handle_successful_payment`: the state before any write, the state after
the `insert_payment_idempotent` statement commits, and (when the insert
succeeded) the state after the `process_subscription_payment` transaction
commits.  Each entry is a state a concurrent reader can observe, because
the two database calls are separate transactions in the source. -/
def handle_successful_payment_trace (db : DBState) (user_id : Nat) (charge_id : String)
    (star_tx_id : Option String) (amount : Int) (is_recurring : Bool)
    (invoice_payload : Option String) (subscription_expiration : Option Int)
    (now : Int) : List DBState :=
  let payment_type := if is_recurring then ("recurring_initial") else ("one_time")
  match insert_payment_idempotent db user_id (some charge_id) star_tx_id amount
      payment_type is_recurring invoice_payload now with
  | (none, db1) => [db, db1]
  | (some p, db1) =>
    [db, db1,
     process_subscription_payment db1 user_id p subscription_expiration is_recurring now]

/-- C1: for every payment ingestion whose `(chargeId, externalTxId)` pair
has been seen before, `handle_successful_payment` returns the `Duplicate`
outcome and leaves the whole modelled state — in particular every
subscription row — exactly as it was. -/
theorem ingest_duplicate_pair_is_noop (db : DBState) (user_id : Nat)
    (charge_id : String) (star_tx_id : Option String) (amount : Int)
    (is_recurring : Bool) (invoice_payload : Option String)
    (subscription_expiration : Option Int) (now : Int)
    (hseen : ∃ p ∈ db.payments, p.charge_id = some charge_id ∧ p.star_tx_id = star_tx_id) :
    handle_successful_payment db user_id charge_id star_tx_id amount is_recurring
      invoice_payload subscription_expiration now = (PaymentOutcome.Duplicate, db) := by
  obtain ⟨p, hp, hc, hs⟩ := hseen
  have hdup : payment_unique_violation db.payments (some charge_id) star_tx_id :=
    ⟨p, hp, Or.inl ⟨rfl, hc⟩⟩
  unfold handle_successful_payment insert_payment_idempotent
  simp only [if_pos hdup]

/-- Witness for C1 at a concrete state: one recorded payment with charge
id `c1` and transaction id `t1`, one active subscription; re-ingesting the
same pair returns `Duplicate` and the state is untouched. -/
theorem ingest_duplicate_pair_is_noop_witness :
    (∃ p ∈ [{ payment_id := 0, user_id := 1, charge_id := some ("c1"),
              star_tx_id := some ("t1"), amount := 499,
              payment_type := ("one_time"), is_recurring := false,
              invoice_payload := none, subscription_id := some 0,
              created_at := 0 : Payment }],
        p.charge_id = some ("c1") ∧ p.star_tx_id = some ("t1")) ∧
    handle_successful_payment
      { payments := [{ payment_id := 0, user_id := 1, charge_id := some ("c1"),
                       star_tx_id := some ("t1"), amount := 499,
                       payment_type := ("one_time"), is_recurring := false,
                       invoice_payload := none, subscription_id := some 0,
                       created_at := 0 }],
        subs := [{ subscription_id := 0, user_id := 1, status := SubStatus.active,
                   expires_at := 2592000, grace_until := none,
                   grace_started_at := none, is_recurring := false,
                   reminder_sent_at := none }],
        recurring_subs := [], cursor := none, whitelist := [],
        next_payment_id := 1, next_subscription_id := 1 }
      1 ("c1") (some ("t1")) 499 false none none 5
      = (PaymentOutcome.Duplicate,
        { payments := [{ payment_id := 0, user_id := 1, charge_id := some ("c1"),
                         star_tx_id := some ("t1"), amount := 499,
                         payment_type := ("one_time"), is_recurring := false,
                         invoice_payload := none, subscription_id := some 0,
                         created_at := 0 }],
          subs := [{ subscription_id := 0, user_id := 1, status := SubStatus.active,
                     expires_at := 2592000, grace_until := none,
                     grace_started_at := none, is_recurring := false,
                     reminder_sent_at := none }],
          recurring_subs := [], cursor := none, whitelist := [],
          next_payment_id := 1, next_subscription_id := 1 }) :=
  ⟨by decide, ingest_duplicate_pair_is_noop _ 1 ("c1") (some ("t1")) 499 false none none 5
    ⟨_, List.mem_singleton.mpr rfl, rfl, rfl⟩⟩

/-- Selection query of the `active -> grace` sweep loop
(app/scheduler.py lines 43-48): active rows past expiry whose
`grace_started_at` is null or older than the one-hour debounce window. -/
def to_grace_candidates (subs : List Subscription) (now : Int) : List Subscription :=
  subs.filter (fun s =>
    decide (s.status = SubStatus.active) && decide (s.expires_at < now) &&
    (match s.grace_started_at with
     | none => true
     | some g => decide (g < now - 3600)))

/-- Embedding of `Database.set_grace` (app/db.py lines 255-263): every
active row of the user becomes `grace` with the given deadline and
`grace_started_at = NOW()`. -/
def set_grace (subs : List Subscription) (user_id : Nat) (grace_until : Int)
    (now : Int) : List Subscription :=
  subs.map (fun s =>
    if s.user_id = user_id ∧ s.status = SubStatus.active then
      { s with status := SubStatus.grace, grace_until := some grace_until,
               grace_started_at := some now }
    else s)

/-- Selection query of the `grace -> expired` sweep loop
(app/scheduler.py lines 130-134): grace rows whose deadline has passed
(SQL `grace_until < now` is false on NULL). -/
def to_expire_candidates (subs : List Subscription) (now : Int) : List Subscription :=
  subs.filter (fun s =>
    decide (s.status = SubStatus.grace) &&
    (match s.grace_until with
     | none => false
     | some g => decide (g < now)))

/-- Embedding of `Database.set_expired` (app/db.py lines 273-279): every
grace row of the user becomes `expired`. -/
def set_expired (subs : List Subscription) (user_id : Nat) : List Subscription :=
  subs.map (fun s =>
    if s.user_id = user_id ∧ s.status = SubStatus.grace then
      { s with status := SubStatus.expired }
    else s)

/-- Embedding of `check_subscriptions` (app/scheduler.py lines 23-250):
snapshot the overdue active rows and push each user to grace with
deadline `expires_at + grace_hours`; then snapshot the overdue grace rows
and expire each user, issuing a ban exactly for the users that hold no
active whitelist entry.  Returns the new subscription table and the list
of users for which `ban_chat_member` was called, in processing order. -/
def check_subscriptions (subs : List Subscription) (whitelist : List Nat)
    (now : Int) : List Subscription × List Nat :=
  let after_grace := (to_grace_candidates subs now).foldl
    (fun acc s => set_grace acc s.user_id (s.expires_at + grace_hours * 3600) now) subs
  let expire_snapshot := to_expire_candidates after_grace now
  let after_expire := expire_snapshot.foldl (fun acc s => set_expired acc s.user_id) after_grace
  let banned := expire_snapshot.filterMap
    (fun s => if s.user_id ∈ whitelist then none else some s.user_id)
  (after_expire, banned)

/-- Folding a list of per-row table rewrites over a table is the same as
rewriting each row by the folded per-row function. -/
theorem foldl_map_eq_map_foldl {α β : Type} (f : β → α → α) (L : List β) (xs : List α) :
    L.foldl (fun acc b => acc.map (f b)) xs =
      xs.map (fun a => L.foldl (fun a b => f b a) a) := by
  induction L generalizing xs with
  | nil => simp
  | cons b L ih =>
    simp only [List.foldl_cons, ih, List.map_map]
    rfl

/-- Per-row effect of the grace loop: fold the snapshot's `set_grace`
updates over one row. -/
def grace_row (now : Int) (L : List Subscription) (r : Subscription) : Subscription :=
  L.foldl (fun a x =>
    if a.user_id = x.user_id ∧ a.status = SubStatus.active then
      { a with status := SubStatus.grace,
               grace_until := some (x.expires_at + grace_hours * 3600),
               grace_started_at := some now }
    else a) r

/-- Per-row effect of the expire loop: fold the snapshot's `set_expired`
updates over one row. -/
def expire_row (L : List Subscription) (r : Subscription) : Subscription :=
  L.foldl (fun a x =>
    if a.user_id = x.user_id ∧ a.status = SubStatus.grace then
      { a with status := SubStatus.expired }
    else a) r

/-- Unfolding lemma: `grace_row` on an empty snapshot is the identity. -/
theorem grace_row_nil (now : Int) (r : Subscription) : grace_row now [] r = r := rfl

/-- Unfolding lemma: one step of `grace_row`. -/
theorem grace_row_cons (now : Int) (x : Subscription) (L : List Subscription)
    (r : Subscription) :
    grace_row now (x :: L) r =
      grace_row now L
        (if r.user_id = x.user_id ∧ r.status = SubStatus.active then
          { r with status := SubStatus.grace,
                   grace_until := some (x.expires_at + grace_hours * 3600),
                   grace_started_at := some now }
        else r) := rfl

/-- Unfolding lemma: `expire_row` on an empty snapshot is the identity. -/
theorem expire_row_nil (r : Subscription) : expire_row [] r = r := rfl

/-- Unfolding lemma: one step of `expire_row`. -/
theorem expire_row_cons (x : Subscription) (L : List Subscription) (r : Subscription) :
    expire_row (x :: L) r =
      expire_row L
        (if r.user_id = x.user_id ∧ r.status = SubStatus.grace then
          { r with status := SubStatus.expired }
        else r) := rfl

/-- A non-active row is untouched by the grace loop. -/
theorem grace_row_nonactive (now : Int) (L : List Subscription) (r : Subscription)
    (hr : r.status ≠ SubStatus.active) : grace_row now L r = r := by
  induction L with
  | nil => rfl
  | cons x L ih =>
    rw [grace_row_cons, if_neg (fun h => hr h.2)]
    exact ih

/-- The grace loop either leaves a row untouched or makes it `grace`. -/
theorem grace_row_cases (now : Int) (L : List Subscription) (r : Subscription) :
    grace_row now L r = r ∨ (grace_row now L r).status = SubStatus.grace := by
  induction L with
  | nil => exact Or.inl rfl
  | cons x L ih =>
    rw [grace_row_cons]
    by_cases hc : r.user_id = x.user_id ∧ r.status = SubStatus.active
    · rw [if_pos hc,
        grace_row_nonactive now L _ (by intro h; exact SubStatus.noConfusion h)]
      exact Or.inr rfl
    · rw [if_neg hc]
      exact ih

/-- If some snapshot row has the user of `r`, the grace loop leaves no
active row for that user. -/
theorem grace_row_hits (now : Int) (L : List Subscription) (r x : Subscription)
    (hx : x ∈ L) (hu : x.user_id = r.user_id) :
    (grace_row now L r).status ≠ SubStatus.active := by
  induction L generalizing r with
  | nil => cases hx
  | cons y L ih =>
    rw [grace_row_cons]
    by_cases hc : r.user_id = y.user_id ∧ r.status = SubStatus.active
    · rw [if_pos hc,
        grace_row_nonactive now L _ (by intro h; exact SubStatus.noConfusion h)]
      intro h
      exact SubStatus.noConfusion h
    · rw [if_neg hc]
      rcases List.mem_cons.mp hx with hxy | hxL
      · by_cases ha : r.status = SubStatus.active
        · exact absurd ⟨by rw [← hu, hxy], ha⟩ hc
        · rw [grace_row_nonactive now L r ha]
          exact ha
      · exact ih _ hxL hu

/-- A non-grace row is untouched by the expire loop. -/
theorem expire_row_nongrace (L : List Subscription) (r : Subscription)
    (hr : r.status ≠ SubStatus.grace) : expire_row L r = r := by
  induction L with
  | nil => rfl
  | cons x L ih =>
    rw [expire_row_cons, if_neg (fun h => hr h.2)]
    exact ih

/-- The expire loop either leaves a row untouched or makes it `expired`. -/
theorem expire_row_cases (L : List Subscription) (r : Subscription) :
    expire_row L r = r ∨ (expire_row L r).status = SubStatus.expired := by
  induction L with
  | nil => exact Or.inl rfl
  | cons x L ih =>
    rw [expire_row_cons]
    by_cases hc : r.user_id = x.user_id ∧ r.status = SubStatus.grace
    · rw [if_pos hc,
        expire_row_nongrace L _ (by intro h; exact SubStatus.noConfusion h)]
      exact Or.inr rfl
    · rw [if_neg hc]
      exact ih

/-- If some snapshot row has the user of `r`, the expire loop leaves no
grace row for that user. -/
theorem expire_row_hits (L : List Subscription) (r x : Subscription)
    (hx : x ∈ L) (hu : x.user_id = r.user_id) :
    (expire_row L r).status ≠ SubStatus.grace := by
  induction L generalizing r with
  | nil => cases hx
  | cons y L ih =>
    rw [expire_row_cons]
    by_cases hc : r.user_id = y.user_id ∧ r.status = SubStatus.grace
    · rw [if_pos hc,
        expire_row_nongrace L _ (by intro h; exact SubStatus.noConfusion h)]
      intro h
      exact SubStatus.noConfusion h
    · rw [if_neg hc]
      rcases List.mem_cons.mp hx with hxy | hxL
      · by_cases ha : r.status = SubStatus.grace
        · exact absurd ⟨by rw [← hu, hxy], ha⟩ hc
        · rw [expire_row_nongrace L r ha]
          exact ha
      · exact ih _ hxL hu

/-- The grace loop of the sweep rewrites each row by `grace_row`. -/
theorem grace_loop_eq_map (subs : List Subscription) (now : Int) (L : List Subscription) :
    L.foldl (fun acc s => set_grace acc s.user_id (s.expires_at + grace_hours * 3600) now)
        subs = subs.map (grace_row now L) :=
  foldl_map_eq_map_foldl
    (fun (x a : Subscription) =>
      if a.user_id = x.user_id ∧ a.status = SubStatus.active then
        { a with status := SubStatus.grace,
                 grace_until := some (x.expires_at + grace_hours * 3600),
                 grace_started_at := some now }
      else a) L subs

/-- The expire loop of the sweep rewrites each row by `expire_row`. -/
theorem expire_loop_eq_map (subs : List Subscription) (L : List Subscription) :
    L.foldl (fun acc s => set_expired acc s.user_id) subs = subs.map (expire_row L) :=
  foldl_map_eq_map_foldl
    (fun (x a : Subscription) =>
      if a.user_id = x.user_id ∧ a.status = SubStatus.grace then
        { a with status := SubStatus.expired }
      else a) L subs

/-- Normal form of the sweep's subscription-table output: every row of the
input rewritten first by the grace loop, then by the expire loop. -/
theorem check_subscriptions_fst_eq (subs : List Subscription) (wl : List Nat) (now : Int) :
    (check_subscriptions subs wl now).1 =
      subs.map (fun s =>
        expire_row
          (to_expire_candidates (subs.map (grace_row now (to_grace_candidates subs now))) now)
          (grace_row now (to_grace_candidates subs now) s)) := by
  simp only [check_subscriptions, grace_loop_eq_map, expire_loop_eq_map, List.map_map]
  rfl

/-- After one sweep, no row still qualifies for the `active -> grace`
transition. -/
theorem sweep_no_grace_candidates (subs : List Subscription) (wl : List Nat) (now : Int) :
    to_grace_candidates (check_subscriptions subs wl now).1 now = [] := by
  unfold to_grace_candidates
  rw [List.filter_eq_nil_iff]
  intro r hr hp
  rw [check_subscriptions_fst_eq] at hr
  obtain ⟨s, hs, hfs⟩ := List.mem_map.mp hr
  set G := to_grace_candidates subs now with hGdef
  set E := to_expire_candidates (subs.map (grace_row now G)) now with hEdef
  have hact : r.status = SubStatus.active := by
    simp only [Bool.and_eq_true, decide_eq_true_eq] at hp
    exact hp.1.1
  have hrm : r = grace_row now G s := by
    rcases expire_row_cases E (grace_row now G s) with h | h
    · rw [← hfs, h]
    · rw [← hfs] at hact
      rw [hact] at h
      exact absurd h (by intro h; exact SubStatus.noConfusion h)
  have hms : grace_row now G s = s := by
    rcases grace_row_cases now G s with h | h
    · exact h
    · rw [← hrm] at h
      rw [hact] at h
      exact absurd h (by intro h; exact SubStatus.noConfusion h)
  have hrs : r = s := by rw [hrm, hms]
  have hsG : s ∈ G := by
    rw [hGdef]
    unfold to_grace_candidates
    rw [List.mem_filter]
    exact ⟨hs, by rw [← hrs]; exact hp⟩
  have := grace_row_hits now G s s hsG rfl
  rw [hms, ← hrs] at this
  exact this hact

/-- After one sweep, no row still qualifies for the `grace -> expired`
transition. -/
theorem sweep_no_expire_candidates (subs : List Subscription) (wl : List Nat) (now : Int) :
    to_expire_candidates (check_subscriptions subs wl now).1 now = [] := by
  unfold to_expire_candidates
  rw [List.filter_eq_nil_iff]
  intro r hr hp
  rw [check_subscriptions_fst_eq] at hr
  obtain ⟨s, hs, hfs⟩ := List.mem_map.mp hr
  set G := to_grace_candidates subs now with hGdef
  set E := to_expire_candidates (subs.map (grace_row now G)) now with hEdef
  have hgrace : r.status = SubStatus.grace := by
    simp only [Bool.and_eq_true, decide_eq_true_eq] at hp
    exact hp.1
  have hrm : r = grace_row now G s := by
    rcases expire_row_cases E (grace_row now G s) with h | h
    · rw [← hfs, h]
    · rw [← hfs] at hgrace
      rw [hgrace] at h
      exact absurd h (by intro h; exact SubStatus.noConfusion h)
  have hmE : grace_row now G s ∈ E := by
    rw [hEdef]
    unfold to_expire_candidates
    rw [List.mem_filter]
    refine ⟨List.mem_map.mpr ⟨s, hs, rfl⟩, ?_⟩
    rw [← hrm]
    exact hp
  have := expire_row_hits E (grace_row now G s) (grace_row now G s) hmE rfl
  rw [← hfs] at hgrace
  exact this hgrace

/-- C8: the state sweep is idempotent: for every starting subscription
table and every time `now`, running `check_subscriptions` twice in
immediate succession (same `now`, same whitelist) leaves the subscription
table exactly as one run does — the second run performs no status, grace
or expiry change. -/
theorem check_subscriptions_idempotent (subs : List Subscription) (wl : List Nat)
    (now : Int) :
    (check_subscriptions (check_subscriptions subs wl now).1 wl now).1 =
      (check_subscriptions subs wl now).1 := by
  have hG := sweep_no_grace_candidates subs wl now
  have hE := sweep_no_expire_candidates subs wl now
  conv_lhs => rw [check_subscriptions]
  rw [hG]
  simp only [List.foldl_nil]
  rw [hE]
  simp only [List.foldl_nil]

/-- Selection query of `send_reminders` (app/scheduler.py lines 273-279):
active non-recurring rows expiring between `now` and
`now + days_before_expire`, whose `reminder_sent_at` is null or more than
one day old. -/
def reminder_candidates (subs : List Subscription) (now : Int) : List Subscription :=
  subs.filter (fun s =>
    decide (s.status = SubStatus.active) && !s.is_recurring &&
    decide (now ≤ s.expires_at) &&
    decide (s.expires_at ≤ now + days_before_expire * 86400) &&
    (match s.reminder_sent_at with
     | none => true
     | some t => decide (t < now - 86400)))

/-- Embedding of `send_reminders` (app/scheduler.py lines 252-356):
snapshot the qualifying rows, message each owner, and stamp
`reminder_sent_at = NOW()` on each messaged row (by `subscription_id`).
Returns the new table together with the list of rows that were sent a
reminder, in processing order. -/
def send_reminders (subs : List Subscription) (now : Int) :
    List Subscription × List Subscription :=
  let snapshot := reminder_candidates subs now
  (snapshot.foldl
    (fun acc s => acc.map (fun r =>
      if r.subscription_id = s.subscription_id then
        { r with reminder_sent_at := some now }
      else r)) subs,
   snapshot)

/-- Counterexample to C9 as stated: a non-recurring subscription expiring
in three days is reminded by a pass at time 0 (stamping
`reminder_sent_at = 0`), and a second pass two days later reminds the
same subscription again, because the query only suppresses rows whose
stamp is less than one day old — the persisted timestamp does not stop
all later passes. -/
theorem reminder_sent_twice_counterexample :
    (send_reminders
      [{ subscription_id := 1, user_id := 1, status := SubStatus.active,
         expires_at := 259200, grace_until := none, grace_started_at := none,
         is_recurring := false, reminder_sent_at := none }] 0).2.length = 1 ∧
    (send_reminders
      (send_reminders
        [{ subscription_id := 1, user_id := 1, status := SubStatus.active,
           expires_at := 259200, grace_until := none, grace_started_at := none,
           is_recurring := false, reminder_sent_at := none }] 0).1 172800).2.length = 1 ∧
    ∀ s ∈ (send_reminders
      (send_reminders
        [{ subscription_id := 1, user_id := 1, status := SubStatus.active,
           expires_at := 259200, grace_until := none, grace_started_at := none,
           is_recurring := false, reminder_sent_at := none }] 0).1 172800).2,
      s.reminder_sent_at = some 0 := by
  decide

/-- C9 (amended): the persisted `reminder_sent_at` stamp suppresses
further reminders only for passes running within one day of the stamp: a
subscription whose stamp `t` satisfies `now - 86400 ≤ t` is not sent a
reminder by the pass at `now`.  Passes running more than one day after
the stamp, while the row is still inside the lead window, send again. -/
theorem reminder_not_resent_within_one_day (subs : List Subscription) (now t : Int)
    (s : Subscription) (hset : s.reminder_sent_at = some t)
    (hrecent : now - 86400 ≤ t) :
    s ∉ (send_reminders subs now).2 := by
  intro hmem
  have hmem2 : s ∈ reminder_candidates subs now := hmem
  unfold reminder_candidates at hmem2
  rw [List.mem_filter] at hmem2
  obtain ⟨-, hp⟩ := hmem2
  rw [hset] at hp
  simp only [Bool.and_eq_true, decide_eq_true_eq] at hp
  have := hp.2
  omega

/-- Witness for the amended C9: a subscription stamped at time 100 is not
reminded again by a pass at time 86500 (which is within one day). -/
theorem reminder_not_resent_within_one_day_witness :
    (86500 - 86400 ≤ (100 : Int)) ∧
    { subscription_id := 1, user_id := 1, status := SubStatus.active,
      expires_at := 259200, grace_until := none, grace_started_at := none,
      is_recurring := false, reminder_sent_at := some 100 : Subscription } ∉
      (send_reminders
        [{ subscription_id := 1, user_id := 1, status := SubStatus.active,
           expires_at := 259200, grace_until := none, grace_started_at := none,
           is_recurring := false, reminder_sent_at := some 100 }] 86500).2 :=
  ⟨by decide,
   reminder_not_resent_within_one_day _ 86500 100 _ rfl (by decide)⟩

/-- Default `max_size` of `OperationQueue` (app/resilience.py line 412). -/
def operation_queue_maxlen : Nat := 1000

/-- Embedding of `OperationQueue.add` (app/resilience.py lines 422-435):
the queue is a `deque(maxlen=1000)`, so appending to a full queue
silently discards the leftmost (oldest) element.  The function returns
only the new queue: the source logs the addition but takes no action at
all for the evicted element. -/
def operation_queue_add {α : Type} (q : List α) (x : α) : List α :=
  if q.length < operation_queue_maxlen then q ++ [x] else q.drop 1 ++ [x]

/-- Starting from a queue within the bound, any sequence of adds stays
within the bound. -/
theorem operation_queue_foldl_length {α : Type} (ops : List α) (q0 : List α)
    (h : q0.length ≤ operation_queue_maxlen) :
    (ops.foldl operation_queue_add q0).length ≤ operation_queue_maxlen := by
  induction ops generalizing q0 with
  | nil => exact h
  | cons a ops ih =>
    simp only [List.foldl_cons]
    apply ih
    unfold operation_queue_add operation_queue_maxlen at *
    split
    · simp only [List.length_append, List.length_singleton]
      omega
    · simp only [List.length_append, List.length_drop, List.length_singleton]
      omega

/-- C10: the deferred operation queue never exceeds its bound of 1000
for any sequence of adds starting from the empty queue, and an add to a
full queue evicts exactly the oldest queued operation — the result is the
tail of the queue plus the new element, and the evicted head receives no
retry and no abandonment log (`operation_queue_add` has no other output). -/
theorem operation_queue_bounded_and_evicts_oldest {α : Type} (ops q : List α) (x : α) :
    ((ops.foldl operation_queue_add []).length ≤ 1000) ∧
    (q.length = 1000 → operation_queue_add q x = q.drop 1 ++ [x]) := by
  constructor
  · exact operation_queue_foldl_length ops [] (by simp [operation_queue_maxlen])
  · intro h
    unfold operation_queue_add operation_queue_maxlen
    rw [if_neg (by omega)]

/-- Witness for C10: three adds stay within the bound, and an add to a
concrete full queue of 1000 elements drops the head. -/
theorem operation_queue_bounded_and_evicts_oldest_witness :
    ((([1, 2, 3] : List Nat).foldl operation_queue_add []).length ≤ 1000) ∧
    ((List.replicate 1000 (0 : Nat)).length = 1000 ∧
      operation_queue_add (List.replicate 1000 (0 : Nat)) 7 =
        (List.replicate 1000 (0 : Nat)).drop 1 ++ [7]) :=
  ⟨(operation_queue_bounded_and_evicts_oldest [1, 2, 3] [] 0).1,
   by rw [List.length_replicate],
   (operation_queue_bounded_and_evicts_oldest ([] : List Nat)
      (List.replicate 1000 0) 7).2 (by rw [List.length_replicate])⟩

/-- Circuit breaker states (app/resilience.py lines 23-27).  The source
values are `closed`, `open`, `half_open`; the middle one is spelled
`opened` here because `open` is reserved. -/
inductive CircuitState where
  | closed
  | opened
  | half_open
deriving DecidableEq, Repr

/-- Configuration of a breaker (app/resilience.py lines 30-36).  Source
defaults: failure_threshold 5, recovery_timeout 30, success_threshold 2. -/
structure CircuitBreakerConfig where
  failure_threshold : Nat
  recovery_timeout : Int
  success_threshold : Nat
deriving DecidableEq, Repr

/-- Mutable state of a breaker: `state`, `_state_changed_at`, and the
consecutive counters of `CircuitBreakerStats` (app/resilience.py lines
39-59). -/
structure CircuitBreaker where
  state : CircuitState
  consecutive_failures : Nat
  consecutive_successes : Nat
  state_changed_at : Int
deriving DecidableEq, Repr

/-- Result of one guarded call: `rejected` means the breaker raised
without invoking the wrapped operation; otherwise the operation ran and
either succeeded or failed. -/
inductive CallResult where
  | rejected
  | succeeded
  | failed
deriving DecidableEq, Repr

/-- Embedding of `CircuitBreaker.call` (app/resilience.py lines 108-178).
`op_succeeds` tells whether the wrapped operation would succeed if
invoked; the Boolean is consulted only on the non-rejected paths, which
is exactly when the source invokes the operation. -/
def circuit_call (cfg : CircuitBreakerConfig) (b : CircuitBreaker) (now : Int)
    (op_succeeds : Bool) : CallResult × CircuitBreaker :=
  let b :=
    if b.state = CircuitState.opened ∧ cfg.recovery_timeout ≤ now - b.state_changed_at then
      { b with state := CircuitState.half_open, state_changed_at := now }
    else b
  if b.state = CircuitState.opened then
    (CallResult.rejected, b)
  else if op_succeeds then
    let b := { b with consecutive_failures := 0,
                      consecutive_successes := b.consecutive_successes + 1 }
    if b.state = CircuitState.half_open ∧ cfg.success_threshold ≤ b.consecutive_successes then
      (CallResult.succeeded, { b with state := CircuitState.closed, state_changed_at := now })
    else
      (CallResult.succeeded, b)
  else
    let b := { b with consecutive_failures := b.consecutive_failures + 1,
                      consecutive_successes := 0 }
    if cfg.failure_threshold ≤ b.consecutive_failures then
      if b.state ≠ CircuitState.opened then
        (CallResult.failed, { b with state := CircuitState.opened, state_changed_at := now })
      else
        (CallResult.failed, b)
    else if b.state = CircuitState.half_open then
      (CallResult.failed, { b with state := CircuitState.opened, state_changed_at := now })
    else
      (CallResult.failed, b)

/-- Iterated guarded calls, keeping only the breaker state; each entry of
`ops` is the success/failure of the wrapped operation on that call. -/
def circuit_calls (cfg : CircuitBreakerConfig) (b : CircuitBreaker) (now : Int)
    (ops : List Bool) : CircuitBreaker :=
  ops.foldl (fun st op => (circuit_call cfg st now op).2) b

/-- Unfolding lemma: one guarded call followed by the rest. -/
theorem circuit_calls_cons (cfg : CircuitBreakerConfig) (b : CircuitBreaker) (now : Int)
    (op : Bool) (ops : List Bool) :
    circuit_calls cfg b now (op :: ops) =
      circuit_calls cfg (circuit_call cfg b now op).2 now ops := rfl

/-- Effect of one failed call on a closed breaker: the failure counter
grows, and the breaker opens exactly when the counter reaches the
threshold. -/
theorem circuit_call_closed_fail (cfg : CircuitBreakerConfig) (cf cs : Nat) (ca now : Int) :
    (circuit_call cfg ⟨CircuitState.closed, cf, cs, ca⟩ now false).2 =
      if cfg.failure_threshold ≤ cf + 1 then ⟨CircuitState.opened, cf + 1, 0, now⟩
      else ⟨CircuitState.closed, cf + 1, 0, ca⟩ := by
  by_cases hthr : cfg.failure_threshold ≤ cf + 1 <;> simp [circuit_call, hthr]

/-- Effect of one successful call on a half-open breaker: the success
counter grows, and the breaker closes exactly when the counter reaches
the threshold. -/
theorem circuit_call_halfopen_success (cfg : CircuitBreakerConfig) (cf cs : Nat)
    (ca now : Int) :
    (circuit_call cfg ⟨CircuitState.half_open, cf, cs, ca⟩ now true).2 =
      if cfg.success_threshold ≤ cs + 1 then ⟨CircuitState.closed, 0, cs + 1, now⟩
      else ⟨CircuitState.half_open, 0, cs + 1, ca⟩ := by
  by_cases hthr : cfg.success_threshold ≤ cs + 1 <;> simp [circuit_call, hthr]

/-- A closed breaker with `n` failures left to the threshold opens after
`n` more consecutive failures. -/
theorem circuit_fails_to_open (cfg : CircuitBreakerConfig) (now : Int) :
    ∀ (n cf cs : Nat) (ca : Int), cf + n = cfg.failure_threshold → 1 ≤ n →
      (circuit_calls cfg ⟨CircuitState.closed, cf, cs, ca⟩ now
        (List.replicate n false)).state = CircuitState.opened := by
  intro n
  induction n with
  | zero => omega
  | succ m ih =>
    intro cf cs ca hcount _
    rw [List.replicate_succ, circuit_calls_cons, circuit_call_closed_fail]
    rcases Nat.eq_zero_or_pos m with hm | hm
    · subst hm
      rw [if_pos (by omega)]
      rfl
    · rw [if_neg (by omega)]
      exact ih (cf + 1) 0 ca (by omega) hm

/-- A half-open breaker with `n` successes left to the threshold closes
after `n` more consecutive successes. -/
theorem circuit_succeeds_to_close (cfg : CircuitBreakerConfig) (now : Int) :
    ∀ (n cf cs : Nat) (ca : Int), cs + n = cfg.success_threshold → 1 ≤ n →
      (circuit_calls cfg ⟨CircuitState.half_open, cf, cs, ca⟩ now
        (List.replicate n true)).state = CircuitState.closed := by
  intro n
  induction n with
  | zero => omega
  | succ m ih =>
    intro cf cs ca hcount _
    rw [List.replicate_succ, circuit_calls_cons, circuit_call_halfopen_success]
    rcases Nat.eq_zero_or_pos m with hm | hm
    · subst hm
      rw [if_pos (by omega)]
      rfl
    · rw [if_neg (by omega)]
      exact ih 0 (cs + 1) ca (by omega) hm

/-- While open and within the recovery timeout, a call is rejected and
the breaker is untouched: the wrapped operation is not invoked. -/
theorem circuit_call_open_fast_fail (cfg : CircuitBreakerConfig) (b : CircuitBreaker)
    (now : Int) (r : Bool) (hst : b.state = CircuitState.opened)
    (h : now - b.state_changed_at < cfg.recovery_timeout) :
    circuit_call cfg b now r = (CallResult.rejected, b) := by
  obtain ⟨st, cf, cs, ca⟩ := b
  change st = CircuitState.opened at hst
  subst hst
  change now - ca < cfg.recovery_timeout at h
  simp [circuit_call, not_le.mpr h]

/-- Once the recovery timeout has elapsed, a call on an open breaker is
not rejected: the breaker moves to half-open and the wrapped operation is
attempted. -/
theorem circuit_call_open_recovery (cfg : CircuitBreakerConfig) (b : CircuitBreaker)
    (now : Int) (r : Bool) (hst : b.state = CircuitState.opened)
    (h : cfg.recovery_timeout ≤ now - b.state_changed_at) :
    (circuit_call cfg b now r).1 ≠ CallResult.rejected := by
  obtain ⟨st, cf, cs, ca⟩ := b
  change st = CircuitState.opened at hst
  subst hst
  change cfg.recovery_timeout ≤ now - ca at h
  cases r
  · by_cases hthr : cfg.failure_threshold ≤ cf + 1 <;>
      simp [circuit_call, h, hthr]
  · by_cases hthr : cfg.success_threshold ≤ cs + 1 <;>
      simp [circuit_call, h, hthr]

/-- A failure while half-open reopens the breaker immediately. -/
theorem circuit_call_halfopen_fail (cfg : CircuitBreakerConfig) (b : CircuitBreaker)
    (now : Int) (hst : b.state = CircuitState.half_open) :
    (circuit_call cfg b now false).2.state = CircuitState.opened := by
  obtain ⟨st, cf, cs, ca⟩ := b
  change st = CircuitState.half_open at hst
  subst hst
  by_cases hthr : cfg.failure_threshold ≤ cf + 1 <;> simp [circuit_call, hthr]

/-- C6: the circuit-breaker lifecycle.  (1) From a closed breaker,
`failure_threshold` consecutive failures leave it open.  (2) While open
inside the recovery timeout, the next call returns rejected immediately
and leaves the breaker untouched — the wrapped operation is not invoked.
(3) Once `recovery_timeout` has elapsed since opening, the next call is
attempted (not rejected).  (4) From half-open, `success_threshold`
consecutive successes close the breaker.  (5) Any failure while half-open
reopens it. -/
theorem circuit_breaker_lifecycle (cfg : CircuitBreakerConfig) (now : Int)
    (b1 b2 b3 b4 b5 : CircuitBreaker) (r : Bool)
    (hft : 1 ≤ cfg.failure_threshold) (hst : 1 ≤ cfg.success_threshold)
    (h1 : b1.state = CircuitState.closed ∧ b1.consecutive_failures = 0)
    (h2 : b2.state = CircuitState.opened ∧
      now - b2.state_changed_at < cfg.recovery_timeout)
    (h3 : b3.state = CircuitState.opened ∧
      cfg.recovery_timeout ≤ now - b3.state_changed_at)
    (h4 : b4.state = CircuitState.half_open ∧ b4.consecutive_successes = 0)
    (h5 : b5.state = CircuitState.half_open) :
    (circuit_calls cfg b1 now (List.replicate cfg.failure_threshold false)).state
        = CircuitState.opened ∧
    circuit_call cfg b2 now r = (CallResult.rejected, b2) ∧
    (circuit_call cfg b3 now r).1 ≠ CallResult.rejected ∧
    (circuit_calls cfg b4 now (List.replicate cfg.success_threshold true)).state
        = CircuitState.closed ∧
    (circuit_call cfg b5 now false).2.state = CircuitState.opened := by
  refine ⟨?_, ?_, ?_, ?_, ?_⟩
  · obtain ⟨st, cf, cs, ca⟩ := b1
    obtain ⟨hs, hc⟩ := h1
    change st = CircuitState.closed at hs
    change cf = 0 at hc
    subst hs
    subst hc
    exact circuit_fails_to_open cfg now cfg.failure_threshold 0 cs ca (by omega) hft
  · exact circuit_call_open_fast_fail cfg b2 now r h2.1 h2.2
  · exact circuit_call_open_recovery cfg b3 now r h3.1 h3.2
  · obtain ⟨st, cf, cs, ca⟩ := b4
    obtain ⟨hs, hc⟩ := h4
    change st = CircuitState.half_open at hs
    change cs = 0 at hc
    subst hs
    subst hc
    exact circuit_succeeds_to_close cfg now cfg.success_threshold cf 0 ca (by omega) hst
  · exact circuit_call_halfopen_fail cfg b5 now h5

/-- Witness for C6 at the source defaults (threshold 5, timeout 30,
success threshold 2) and concrete breakers for each of the five clauses. -/
theorem circuit_breaker_lifecycle_witness :
    (circuit_calls ⟨5, 30, 2⟩ ⟨CircuitState.closed, 0, 0, 0⟩ 100
        (List.replicate 5 false)).state = CircuitState.opened ∧
    circuit_call ⟨5, 30, 2⟩ ⟨CircuitState.opened, 5, 0, 90⟩ 100 true
        = (CallResult.rejected, ⟨CircuitState.opened, 5, 0, 90⟩) ∧
    (circuit_call ⟨5, 30, 2⟩ ⟨CircuitState.opened, 5, 0, 0⟩ 100 true).1
        ≠ CallResult.rejected ∧
    (circuit_calls ⟨5, 30, 2⟩ ⟨CircuitState.half_open, 0, 0, 100⟩ 100
        (List.replicate 2 true)).state = CircuitState.closed ∧
    (circuit_call ⟨5, 30, 2⟩ ⟨CircuitState.half_open, 0, 1, 100⟩ 100 false).2.state
        = CircuitState.opened :=
  circuit_breaker_lifecycle ⟨5, 30, 2⟩ 100 ⟨CircuitState.closed, 0, 0, 0⟩
    ⟨CircuitState.opened, 5, 0, 90⟩ ⟨CircuitState.opened, 5, 0, 0⟩
    ⟨CircuitState.half_open, 0, 0, 100⟩ ⟨CircuitState.half_open, 0, 1, 100⟩ true
    (by decide) (by decide) ⟨rfl, by decide⟩ ⟨rfl, by decide⟩ ⟨rfl, by decide⟩
    ⟨rfl, rfl⟩ rfl

/-- An entry of the external transaction ledger as consumed by
`reconcile_star_transactions` (aiogram `StarTransaction`): id, unix date,
amount, and the paying user when the transaction has a user source. -/
structure StarTx where
  id : String
  date : Int
  amount : Int
  source_user : Option Nat
deriving DecidableEq, Repr

/-- Embedding of `Database.get_reconcile_cursor` (app/db.py lines
282-303): return the stored cursor, initializing it to `now` minus seven
days when absent. -/
def get_reconcile_cursor (db : DBState) (now : Int) : Int × DBState :=
  match db.cursor with
  | some c => (c, db)
  | none =>
    let c := now - 7 * 86400
    (c, { db with cursor := some c })


/-- Database effect of one iteration of the per-transaction loop of
`reconcile_star_transactions` (app/reconcile.py lines 68-118), for an
in-window transaction: skip ids already cached from the overlap query;
for user-sourced entries insert idempotently and, when the insert
succeeded, extend the user's subscription — the UPDATE is keyed only on
`user_id` and `status IN (active, grace, expired)` — or create a new
active row when the user has no active-or-grace subscription. -/
def reconcile_step_db (existing_star_tx_ids : List String) (now : Int) (db : DBState)
    (tx : StarTx) : DBState :=
  if tx.id ∈ existing_star_tx_ids then db
  else
    match tx.source_user with
    | none => db
    | some user_id =>
      match insert_payment_idempotent db user_id none (some tx.id) tx.amount
          ("recurring_renewal") true none now with
      | (none, db2) => db2
      | (some _, db2) =>
        match get_active_subscription db2.subs user_id with
        | some subscription =>
          let new_expires := max subscription.expires_at (tx.date + 30 * 86400)
          { db2 with subs := db2.subs.map (fun s =>
              if s.user_id = user_id ∧ (s.status = SubStatus.active ∨
                  s.status = SubStatus.grace ∨ s.status = SubStatus.expired) then
                { s with expires_at := new_expires, status := SubStatus.active,
                         grace_until := none, grace_started_at := none }
              else s) }
        | none =>
          { db2 with
            subs := db2.subs ++
              [{ subscription_id := db2.next_subscription_id, user_id := user_id,
                 status := SubStatus.active, expires_at := tx.date + 30 * 86400,
                 grace_until := none, grace_started_at := none,
                 is_recurring := true, reminder_sent_at := none }],
            next_subscription_id := db2.next_subscription_id + 1 }

/-- One iteration of the per-transaction loop (app/reconcile.py lines
56-120) on the accumulator (database, max observed tx date): entries
outside `[from_date, to_date]` are skipped entirely; in-window entries
first raise the max observed date, then apply `reconcile_step_db`. -/
def reconcile_step (from_date to_date : Int) (existing_star_tx_ids : List String)
    (now : Int) (acc : DBState × Int) (tx : StarTx) : DBState × Int :=
  if tx.date < from_date ∨ to_date < tx.date then acc
  else
    (reconcile_step_db existing_star_tx_ids now acc.1 tx,
     if acc.2 < tx.date then tx.date else acc.2)

/-- Embedding of `reconcile_star_transactions` (app/reconcile.py lines
9-148).  `txs` is the sequence of transactions the paging loop
successfully enumerated before finishing or failing; a partial paging
failure is modelled by `txs` being a prefix of the provider's ledger.
Read (and possibly initialize) the cursor, compute the overlap window,
cache the star tx ids of local payments younger than the window start
minus one day, fold the loop body, and finally advance the cursor to the
max observed date. -/
def reconcile_star_transactions (db : DBState) (now : Int) (txs : List StarTx) : DBState :=
  let ci := get_reconcile_cursor db now
  let last_tx_at := ci.1
  let db1 := ci.2
  let from_date := last_tx_at - reconcile_window_days * 86400
  let to_date := now
  let existing_star_tx_ids :=
    (db1.payments.filter (fun p => decide (from_date - 86400 ≤ p.created_at))).filterMap
      (fun p => p.star_tx_id)
  let r := txs.foldl (reconcile_step from_date to_date existing_star_tx_ids now)
    (db1, last_tx_at)
  { r.1 with cursor := some r.2 }

/-- One reconcile step leaves the database untouched when the
transaction's id already has a payment row in the local ledger. -/
theorem reconcile_step_db_skips_known (existing : List String) (now : Int)
    (db : DBState) (tx : StarTx)
    (hknown : ∃ p ∈ db.payments, p.star_tx_id = some tx.id) :
    reconcile_step_db existing now db tx = db := by
  unfold reconcile_step_db
  by_cases hex : tx.id ∈ existing
  · rw [if_pos hex]
  · rw [if_neg hex]
    rcases htx : tx.source_user with - | user_id
    · rfl
    · have hdup : payment_unique_violation db.payments none (some tx.id) := by
        obtain ⟨p, hp, hpid⟩ := hknown
        exact ⟨p, hp, Or.inr ⟨rfl, hpid⟩⟩
      have hins : insert_payment_idempotent db user_id none (some tx.id) tx.amount
          ("recurring_renewal") true none now = (none, db) := by
        unfold insert_payment_idempotent
        rw [if_pos hdup]
      simp only [htx, hins]

/-- One reconcile step never moves the max observed date backward. -/
theorem reconcile_step_monotone (from_date to_date : Int) (existing : List String)
    (now : Int) (acc : DBState × Int) (tx : StarTx) :
    acc.2 ≤ (reconcile_step from_date to_date existing now acc tx).2 := by
  unfold reconcile_step
  by_cases hwin : tx.date < from_date ∨ to_date < tx.date
  · rw [if_pos hwin]
  · rw [if_neg hwin]
    show acc.2 ≤ if acc.2 < tx.date then tx.date else acc.2
    split <;> omega

/-- Folding the reconcile loop over transactions that all already have a
payment row in the local ledger leaves the database untouched. -/
theorem reconcile_fold_db_unchanged (from_date to_date : Int) (existing : List String)
    (now : Int) (txs : List StarTx) :
    ∀ acc : DBState × Int,
      (∀ tx ∈ txs, ∃ p ∈ acc.1.payments, p.star_tx_id = some tx.id) →
      (txs.foldl (reconcile_step from_date to_date existing now) acc).1 = acc.1 := by
  induction txs with
  | nil => intro acc _; rfl
  | cons tx txs ih =>
    intro acc h
    rw [List.foldl_cons]
    have hstep : (reconcile_step from_date to_date existing now acc tx).1 = acc.1 := by
      unfold reconcile_step
      by_cases hwin : tx.date < from_date ∨ to_date < tx.date
      · rw [if_pos hwin]
      · rw [if_neg hwin]
        exact reconcile_step_db_skips_known existing now acc.1 tx
          (h tx (List.mem_cons_self tx txs))
    have htail := ih (reconcile_step from_date to_date existing now acc tx)
      (fun t ht => by rw [hstep]; exact h t (List.mem_cons_of_mem _ ht))
    rw [htail, hstep]

/-- Folding the reconcile loop never moves the max observed date backward. -/
theorem reconcile_fold_monotone (from_date to_date : Int) (existing : List String)
    (now : Int) (txs : List StarTx) :
    ∀ acc : DBState × Int,
      acc.2 ≤ (txs.foldl (reconcile_step from_date to_date existing now) acc).2 := by
  induction txs with
  | nil => intro acc; exact le_refl _
  | cons tx txs ih =>
    intro acc
    rw [List.foldl_cons]
    exact le_trans (reconcile_step_monotone from_date to_date existing now acc tx)
      (ih (reconcile_step from_date to_date existing now acc tx))

/-- Unfolding of a reconcile run when the cursor is already set. -/
theorem reconcile_unfold (db : DBState) (now : Int) (txs : List StarTx) (c : Int)
    (hc : db.cursor = some c) :
    reconcile_star_transactions db now txs =
      (let from_date := c - reconcile_window_days * 86400
       let existing :=
         (db.payments.filter (fun p => decide (from_date - 86400 ≤ p.created_at))).filterMap
           (fun p => p.star_tx_id)
       let r := txs.foldl (reconcile_step from_date now existing now) (db, c)
       { r.1 with cursor := some r.2 }) := by
  unfold reconcile_star_transactions get_reconcile_cursor
  rw [hc]

/-- C5: re-running reconciliation over a window in which every enumerated
external transaction already has a payment row in the local ledger
inserts zero new payment rows; and every run — `txs` may be any prefix of
the provider's ledger, covering partial paging failure — advances the
cursor to a value greater than or equal to its previous value. -/
theorem reconcile_rerun_empty_and_cursor_monotone (db : DBState) (now : Int)
    (txs : List StarTx) (c : Int) (hc : db.cursor = some c) :
    ((∀ tx ∈ txs, ∃ p ∈ db.payments, p.star_tx_id = some tx.id) →
      (reconcile_star_transactions db now txs).payments = db.payments) ∧
    ∃ m, (reconcile_star_transactions db now txs).cursor = some m ∧ c ≤ m := by
  rw [reconcile_unfold db now txs c hc]
  constructor
  · intro hdup
    have := reconcile_fold_db_unchanged (c - reconcile_window_days * 86400) now
      ((db.payments.filter (fun p =>
          decide (c - reconcile_window_days * 86400 - 86400 ≤ p.created_at))).filterMap
        (fun p => p.star_tx_id)) now txs (db, c) hdup
    show ((txs.foldl _ (db, c)).1).payments = db.payments
    rw [this]
  · refine ⟨(txs.foldl _ (db, c)).2, rfl, ?_⟩
    exact reconcile_fold_monotone _ now _ now txs (db, c)


/-- Concrete ledger state for the C5 witness: one recorded payment for
external transaction `t1`, cursor at 1000. -/
def reconcile_witness_db : DBState :=
  { payments := [{ payment_id := 0, user_id := 7, charge_id := none,
                   star_tx_id := some ("t1"), amount := 30,
                   payment_type := ("recurring_renewal"), is_recurring := true,
                   invoice_payload := none, subscription_id := none,
                   created_at := 900 }],
    subs := [], recurring_subs := [], cursor := some 1000, whitelist := [],
    next_payment_id := 1, next_subscription_id := 0 }

/-- Concrete provider page for the C5 witness: the already-recorded
transaction `t1` dated 2000. -/
def reconcile_witness_txs : List StarTx :=
  [{ id := ("t1"), date := 2000, amount := 30, source_user := some 7 }]

/-- Witness for C5: re-running reconciliation over the already-recorded
transaction adds no payment row, and the cursor does not move backward
from 1000. -/
theorem reconcile_rerun_empty_and_cursor_monotone_witness :
    ((∀ tx ∈ reconcile_witness_txs,
        ∃ p ∈ reconcile_witness_db.payments, p.star_tx_id = some tx.id) →
      (reconcile_star_transactions reconcile_witness_db 5000
          reconcile_witness_txs).payments = reconcile_witness_db.payments) ∧
    ∃ m, (reconcile_star_transactions reconcile_witness_db 5000
        reconcile_witness_txs).cursor = some m ∧ (1000 : Int) ≤ m :=
  reconcile_rerun_empty_and_cursor_monotone reconcile_witness_db 5000
    reconcile_witness_txs 1000 rfl

/-- Number of rows of a user with status in (active, grace) — the
quantity the single-active-row invariant bounds by one. -/
def active_grace_rows (subs : List Subscription) (user_id : Nat) : Nat :=
  (subs.filter (fun s => decide (s.user_id = user_id) &&
    (decide (s.status = SubStatus.active) || decide (s.status = SubStatus.grace)))).length

/-- Concrete state for C4: user 7 holds one historical `expired` row and
one current `active` row — the invariant holds (one active-or-grace row). -/
def invariant_witness_db : DBState :=
  { payments := [],
    subs := [{ subscription_id := 1, user_id := 7, status := SubStatus.expired,
               expires_at := -100, grace_until := none, grace_started_at := none,
               is_recurring := true, reminder_sent_at := none },
             { subscription_id := 2, user_id := 7, status := SubStatus.active,
               expires_at := 1000000, grace_until := none, grace_started_at := none,
               is_recurring := true, reminder_sent_at := none }],
    recurring_subs := [], cursor := some 0, whitelist := [],
    next_payment_id := 0, next_subscription_id := 3 }

/-- Concrete provider page for C4: one new transaction of user 7. -/
def invariant_witness_txs : List StarTx :=
  [{ id := ("t9"), date := 500, amount := 30, source_user := some 7 }]

/-- C4 fails on the code: the reconcile UPDATE is keyed only on
`user_id` and `status IN (active, grace, expired)` (app/reconcile.py
lines 98-106), so applying one reconciled payment to a user holding a
historical `expired` row re-activates that row as well: the user goes
from one active-or-grace row to two.  The claimed invariant is not
preserved by reconciliation. -/
theorem reconcile_breaks_single_active_invariant :
    active_grace_rows invariant_witness_db.subs 7 = 1 ∧
    active_grace_rows
      (reconcile_star_transactions invariant_witness_db 5000 invariant_witness_txs).subs
      7 = 2 := by
  decide

/-- C2 fails on the code: `insert_payment_idempotent` commits in its own
transaction before `process_subscription_payment` opens (app/routers/
payments.py lines 114-157), so the trace of committed states contains an
observable intermediate state holding the payment row while the user has
no subscription row; only the final state has both.  A concurrent sweep
reading between the two commits observes the payment without its
subscription extension. -/
theorem payment_and_subscription_not_atomic :
    ((handle_successful_payment_trace
        { payments := [], subs := [], recurring_subs := [], cursor := none,
          whitelist := [], next_payment_id := 0, next_subscription_id := 0 }
        1 ("c1") none 499 false none none 0)[1]?).map
      (fun s => (s.payments.length, s.subs.length)) = some (1, 0) ∧
    ((handle_successful_payment_trace
        { payments := [], subs := [], recurring_subs := [], cursor := none,
          whitelist := [], next_payment_id := 0, next_subscription_id := 0 }
        1 ("c1") none 499 false none none 0)[2]?).map
      (fun s => (s.payments.length, s.subs.length)) = some (1, 1) := by
  decide

/-- Concrete state for the C3 counterexample: user 1 already active until
time 3456000 (40 days), and pays again at time 0. -/
def extension_witness_db : DBState :=
  { payments := [],
    subs := [{ subscription_id := 5, user_id := 1, status := SubStatus.active,
               expires_at := 3456000, grace_until := none, grace_started_at := none,
               is_recurring := false, reminder_sent_at := none }],
    recurring_subs := [], cursor := none, whitelist := [],
    next_payment_id := 0, next_subscription_id := 6 }

/-- Counterexample to C3 as stated: the source computes
`GREATEST(expires_at, now + plan_days)`, not
`GREATEST(expires_at, now) + plan_days`.  A user active until
3456000 (40 days) who pays a one-time plan at time 0 keeps expiry
3456000: the payment extends nothing, while the claimed formula
`max(current expiry, now) + plan duration` demands 6048000 (70 days). -/
theorem payment_extension_formula_counterexample :
    (handle_successful_payment extension_witness_db 1 ("c9") none 30 false none none
        0).2.subs.map (fun s => s.expires_at) = [3456000] ∧
    (3456000 : Int) ≠ max 3456000 0 + 30 * 86400 := by
  decide

/-- The max-picking fold of `get_active_subscription` returns either its
seed or a member of the list. -/
theorem pick_max_mem (l : List Subscription) :
    ∀ (acc : Option Subscription) (b : Subscription),
      l.foldl (fun best s =>
        match best with
        | none => some s
        | some x => if x.expires_at < s.expires_at then some s else some x) acc = some b →
      acc = some b ∨ b ∈ l := by
  induction l with
  | nil => intro acc b h; exact Or.inl h
  | cons s l ih =>
    intro acc b h
    rw [List.foldl_cons] at h
    rcases ih _ b h with hacc | hmem
    · match acc with
      | none =>
        rcases hacc with ⟨⟩
        exact Or.inr (List.mem_cons_self _ _)
      | some x =>
        change (if x.expires_at < s.expires_at then some s else some x) = some b at hacc
        by_cases hlt : x.expires_at < s.expires_at
        · rw [if_pos hlt] at hacc
          rcases hacc with ⟨⟩
          exact Or.inr (List.mem_cons_self _ _)
        · rw [if_neg hlt] at hacc
          exact Or.inl hacc
    · exact Or.inr (List.mem_cons_of_mem _ hmem)

/-- A subscription returned by `get_active_subscription` is a row of the
table, belongs to the queried user, and is active or grace. -/
theorem get_active_subscription_mem (subs : List Subscription) (user_id : Nat)
    (es : Subscription) (h : get_active_subscription subs user_id = some es) :
    es ∈ subs ∧ es.user_id = user_id ∧
      (es.status = SubStatus.active ∨ es.status = SubStatus.grace) := by
  unfold get_active_subscription at h
  rcases pick_max_mem _ none es h with hacc | hmem
  · exact absurd hacc (by intro h; cases h)
  · rw [List.mem_filter] at hmem
    obtain ⟨hm, hp⟩ := hmem
    simp only [Bool.and_eq_true, Bool.or_eq_true, decide_eq_true_eq] at hp
    exact ⟨hm, hp.1, hp.2⟩

/-- C3 (amended): on any successful idempotent payment insert, when the
user holds an active-or-grace row, that row is set `active`, its grace
fields are cleared, and its new expiry is
`max(current expiry, target)` where `target` is the provider-supplied
expiry for recurring charges, or `now + plan duration` otherwise — not
`max(current expiry, now) + plan duration` as the spec words it; when the
user holds no active-or-grace row (including the `expired` case, whose
old row is never looked at), a fresh active row with expiry `target` and
null grace fields is created. -/
theorem process_payment_sets_active_clears_grace (db : DBState) (user_id : Nat)
    (payment : Payment) (subscription_expiration : Option Int) (is_recurring : Bool)
    (now : Int) :
    (∀ es, get_active_subscription db.subs user_id = some es →
      ∃ s ∈ (process_subscription_payment db user_id payment subscription_expiration
          is_recurring now).subs,
        s.subscription_id = es.subscription_id ∧ s.user_id = user_id ∧
        s.status = SubStatus.active ∧
        s.expires_at = max es.expires_at
          (subscription_expiration.getD (now + plan_days * 86400)) ∧
        s.grace_until = none ∧ s.grace_started_at = none) ∧
    (get_active_subscription db.subs user_id = none →
      ∃ s ∈ (process_subscription_payment db user_id payment subscription_expiration
          is_recurring now).subs,
        s.user_id = user_id ∧ s.status = SubStatus.active ∧
        s.expires_at = subscription_expiration.getD (now + plan_days * 86400) ∧
        s.grace_until = none ∧ s.grace_started_at = none) := by
  constructor
  · intro es hes
    obtain ⟨hmem, huid, -⟩ := get_active_subscription_mem db.subs user_id es hes
    unfold process_subscription_payment
    simp only [hes]
    refine ⟨({ es with
               status := SubStatus.active,
               is_recurring := is_recurring,
               expires_at := max es.expires_at
                 (subscription_expiration.getD (now + plan_days * 86400)),
               grace_until := none,
               grace_started_at := none } : Subscription),
            ?_, rfl, huid, rfl, rfl, rfl, rfl⟩
    exact List.mem_map.mpr ⟨es, hmem, by rw [if_pos rfl]⟩
  · intro hnone
    unfold process_subscription_payment
    simp only [hnone]
    refine ⟨({ subscription_id := db.next_subscription_id, user_id := user_id,
               status := SubStatus.active,
               expires_at := subscription_expiration.getD (now + plan_days * 86400),
               grace_until := none, grace_started_at := none,
               is_recurring := is_recurring, reminder_sent_at := none } : Subscription),
            ?_, rfl, rfl, rfl, rfl, rfl⟩
    exact List.mem_append_right _ (List.mem_singleton.mpr rfl)

/-- Concrete payment rows used by the witness for the amended C3. -/
def extension_witness_payment : Payment :=
  { payment_id := 0, user_id := 1, charge_id := some ("c9"), star_tx_id := none,
    amount := 30, payment_type := ("one_time"), is_recurring := false,
    invoice_payload := none, subscription_id := none, created_at := 0 }

/-- Empty ledger used by the witness for the amended C3's fresh-row case. -/
def extension_witness_db_empty : DBState :=
  { payments := [], subs := [], recurring_subs := [], cursor := none,
    whitelist := [], next_payment_id := 0, next_subscription_id := 0 }

/-- Witness for the amended C3: both branches at concrete states — the
40-day-active user of the counterexample gets expiry
`max 3456000 2592000 = 3456000`, and a user with no active row gets a
fresh active row expiring 30 days after the payment. -/
theorem process_payment_sets_active_clears_grace_witness :
    (∃ s ∈ (process_subscription_payment extension_witness_db 1
        extension_witness_payment none false 0).subs,
      s.subscription_id = 5 ∧ s.user_id = 1 ∧ s.status = SubStatus.active ∧
      s.expires_at = max 3456000 (((none : Option Int)).getD (0 + plan_days * 86400)) ∧
      s.grace_until = none ∧ s.grace_started_at = none) ∧
    (∃ s ∈ (process_subscription_payment extension_witness_db_empty 2
        extension_witness_payment none false 0).subs,
      s.user_id = 2 ∧ s.status = SubStatus.active ∧
      s.expires_at = ((none : Option Int)).getD (0 + plan_days * 86400) ∧
      s.grace_until = none ∧ s.grace_started_at = none) := by
  constructor
  · have h := (process_payment_sets_active_clears_grace extension_witness_db 1
      extension_witness_payment none false 0).1
    obtain ⟨s, hs, h1, h2, h3, h4, h5, h6⟩ := h
      { subscription_id := 5, user_id := 1, status := SubStatus.active,
        expires_at := 3456000, grace_until := none, grace_started_at := none,
        is_recurring := false, reminder_sent_at := none } (by decide)
    exact ⟨s, hs, h1, h2, h3, h4, h5, h6⟩
  · exact (process_payment_sets_active_clears_grace extension_witness_db_empty 2
      extension_witness_payment none false 0).2 (by decide)

/-- Empty starting state of the end-to-end scenario C7. -/
def scenario_db0 : DBState :=
  { payments := [], subs := [], recurring_subs := [], cursor := none,
    whitelist := [], next_payment_id := 0, next_subscription_id := 0 }

/-- State after user 1 pays 499 at `t0` for the one-time 30-day plan. -/
def scenario_db1 (t0 : Int) : DBState :=
  (handle_successful_payment scenario_db0 1 ("c7") none 499 false none none t0).2

/-- Sweep one hour after the 30-day expiry. -/
def scenario_sweep1 (t0 : Int) : List Subscription × List Nat :=
  check_subscriptions (scenario_db1 t0).subs [] (t0 + 2592000 + 3600)

/-- Sweep one minute after the grace deadline, with a given whitelist. -/
def scenario_sweep2 (t0 : Int) (whitelist : List Nat) : List Subscription × List Nat :=
  check_subscriptions (scenario_sweep1 t0).1 whitelist (t0 + 2592000 + 172800 + 60)

/-- Counterexample to C7 as stated: after paying at time 0, the sweep at
30 days + 1 hour sets `grace_until` to `expires_at + 48h = 2764800`
(app/scheduler.py line 64 adds the grace hours to the stored expiry), not
to sweep time + 48h = 2768400 as the claim demands. -/
theorem scenario_grace_deadline_counterexample :
    (scenario_sweep1 0).1.map (fun s => s.grace_until) = [some 2764800] ∧
    (2764800 : Int) ≠ 2768400 := by
  decide

/-- C7 (amended): the end-to-end scenario for any payment time `t0`.
Paying at `t0` creates an active subscription expiring at `t0 + 30d`; the
sweep at `t0 + 30d + 1h` moves it to grace with
`grace_until = expires_at + 48h = t0 + 30d + 48h` (not sweep time + 48h)
and bans nobody; the sweep one minute after the grace deadline sets the
row `expired` and issues a ban exactly when the user holds no active
whitelist entry — with a whitelist entry the row still becomes `expired`
but no ban is issued. -/
theorem end_to_end_scenario (t0 : Int) :
    ((scenario_db1 t0).subs.map (fun s => (s.status, s.expires_at)) =
      [(SubStatus.active, t0 + 2592000)]) ∧
    ((scenario_sweep1 t0).1.map (fun s => (s.status, s.grace_until)) =
      [(SubStatus.grace, some (t0 + 2592000 + 172800))]) ∧
    ((scenario_sweep1 t0).2 = []) ∧
    ((scenario_sweep2 t0 []).1.map (fun s => s.status) = [SubStatus.expired]) ∧
    ((scenario_sweep2 t0 []).2 = [1]) ∧
    ((scenario_sweep2 t0 [1]).1.map (fun s => s.status) = [SubStatus.expired]) ∧
    ((scenario_sweep2 t0 [1]).2 = []) := by
  have e1 : (scenario_db1 t0).subs =
      [⟨0, 1, SubStatus.active, t0 + 2592000, none, none, false, none⟩] := rfl
  have hlt1 : t0 + 2592000 < t0 + 2592000 + 3600 := by omega
  have hng : ¬(t0 + 2592000 + 172800 < t0 + 2592000 + 3600) := by omega
  have hsweep1 : scenario_sweep1 t0 =
      ([⟨0, 1, SubStatus.grace, t0 + 2592000, some (t0 + 2592000 + 172800),
         some (t0 + 2592000 + 3600), false, none⟩], []) := by
    unfold scenario_sweep1 check_subscriptions
    rw [e1]
    simp [to_grace_candidates, to_expire_candidates, set_grace, grace_hours,
      hlt1, hng]
  have hlt2 : t0 + 2592000 + 172800 < t0 + 2592000 + 172800 + 60 := by omega
  have hsweep2 : ∀ wl : List Nat, scenario_sweep2 t0 wl =
      ([⟨0, 1, SubStatus.expired, t0 + 2592000, some (t0 + 2592000 + 172800),
         some (t0 + 2592000 + 3600), false, none⟩],
       if 1 ∈ wl then [] else [1]) := by
    intro wl
    unfold scenario_sweep2 check_subscriptions
    rw [hsweep1]
    simp [to_grace_candidates, to_expire_candidates, set_expired, hlt2]
    by_cases hwl : 1 ∈ wl <;> simp [hwl]
  refine ⟨by rw [e1]; rfl, ?_, ?_, ?_, ?_, ?_, ?_⟩
  · rw [hsweep1]
    rfl
  · rw [hsweep1]
  · rw [hsweep2]
    rfl
  · rw [hsweep2]
    rfl
  · rw [hsweep2]
    rfl
  · rw [hsweep2]
    rfl
